import Mathlib

/-!
Shallow embedding of the core of `IsoTarget.py` (class `OrthogonalMatchUI`):
the dual-view transform state, cursor-anchored zoom, KV offset coupling,
the history stack, the compositor (`_update_match_overlay`), the adjustment
chain and the filter pipeline.

Python dictionaries are mutable reference cells.  `_save_state` pushes
copies of the five mutable dictionaries, while `_undo_last_action` assigns
the stored dictionaries back to the instance attributes *without* copying.
To stay faithful to this we model the five mutable dictionaries
(`kv_offsets`, `rotations`, `zoom_levels`, `pan_offsets`,
`adjustment_values`) as one heap-allocated record `Mut`: the heap is a list
of records, the live state and every history entry hold an address into it.
The five dictionaries are always (re)assigned together — in `__init__`,
`_save_state` (fresh copies), `_undo_last_action` (aliased from the entry),
`_reset_to_default` and `_reset_to_initial_values` (fresh copies) — so one
address for the bundle is observationally equivalent to five.

Numbers are ℚ (Python floats carry exact decimal literals such as 0.1 here
only through arithmetic the claims state exactly; ℚ keeps the algebra
exact), pixel offsets are ℤ.  PIL image objects are never mutated in place
by this program (they are replaced wholesale), hence value semantics for
rasters.  PIL resampling / enhancement internals are abstracted as a
record of function parameters (`Prims`); everything the claims depend on
(data flow, guards, paste and merge formulas) is translated directly.
-/

namespace IsoTarget

inductive View where
  | ap
  | lat
deriving DecidableEq, Repr

inductive Slot where
  | drr_ap
  | kv_ap
  | drr_lat
  | kv_lat
deriving DecidableEq, Repr

/-- An RGB pixel; channels are rationals (8-bit values embed into ℚ). -/
structure RGB where
  r : ℚ
  g : ℚ
  b : ℚ
deriving DecidableEq, Repr

def blackRGB : RGB := ⟨0, 0, 0⟩

/-- A raster image: dimensions plus a pixel function. -/
structure Raster where
  w : ℕ
  h : ℕ
  pix : ℕ → ℕ → RGB

/-- Per-view container mirroring the `{'ap': _, 'lat': _}` dictionaries. -/
structure PerView (α : Type) where
  ap : α
  lat : α
deriving DecidableEq, Repr

def PerView.get {α : Type} (p : PerView α) : View → α
  | View.ap => p.ap
  | View.lat => p.lat

def PerView.set {α : Type} (p : PerView α) : View → α → PerView α
  | View.ap, a => { p with ap := a }
  | View.lat, a => { p with lat := a }

/-- `self.kv_offsets = {'ap_x': .., 'ap_y': .., 'lat_x': .., 'lat_y': ..}`. -/
structure KvOffsets where
  ap_x : ℤ
  ap_y : ℤ
  lat_x : ℤ
  lat_y : ℤ
deriving DecidableEq, Repr

inductive AdjKind where
  | brightness
  | contrast
  | sharpness
deriving DecidableEq, Repr

/-- `self.adjustment_values` : three per-view sliders. -/
structure AdjustmentValues where
  brightness : PerView ℚ
  contrast : PerView ℚ
  sharpness : PerView ℚ
deriving DecidableEq, Repr

def AdjustmentValues.get (a : AdjustmentValues) : AdjKind → PerView ℚ
  | AdjKind.brightness => a.brightness
  | AdjKind.contrast => a.contrast
  | AdjKind.sharpness => a.sharpness

def AdjustmentValues.setKind (a : AdjustmentValues) : AdjKind → View → ℚ → AdjustmentValues
  | AdjKind.brightness, v, q => { a with brightness := a.brightness.set v q }
  | AdjKind.contrast, v, q => { a with contrast := a.contrast.set v q }
  | AdjKind.sharpness, v, q => { a with sharpness := a.sharpness.set v q }

/-- The bundle of the five mutable dictionaries of transform/adjustment state. -/
structure Mut where
  kv_offsets : KvOffsets
  rotations : PerView ℚ
  zoom_levels : PerView ℚ
  pan_offsets : PerView (ℚ × ℚ)
  adjustment_values : AdjustmentValues
deriving DecidableEq, Repr

def defaultMut : Mut where
  kv_offsets := ⟨0, 0, 0, 0⟩
  rotations := ⟨0, 0⟩
  zoom_levels := ⟨1, 1⟩
  pan_offsets := ⟨(0, 0), (0, 0)⟩
  adjustment_values := ⟨⟨1, 1⟩, ⟨1, 1⟩, ⟨1, 1⟩⟩

instance : Inhabited Mut := ⟨defaultMut⟩

/-- One history entry pushed by `_save_state`: the address of the copied
dictionary bundle plus the scalar `alpha` / `use_color_overlay` values. -/
structure Snap where
  addr : ℕ
  alpha : ℚ
  use_color_overlay : Bool
deriving DecidableEq, Repr

/-- The four raster slots (`self.images` / `self.original_images`). -/
structure Slots (α : Type) where
  drr_ap : α
  kv_ap : α
  drr_lat : α
  kv_lat : α

def Slots.get {α : Type} (s : Slots α) : Slot → α
  | Slot.drr_ap => s.drr_ap
  | Slot.kv_ap => s.kv_ap
  | Slot.drr_lat => s.drr_lat
  | Slot.kv_lat => s.kv_lat

def Slots.set {α : Type} (s : Slots α) : Slot → α → Slots α
  | Slot.drr_ap, a => { s with drr_ap := a }
  | Slot.kv_ap, a => { s with kv_ap := a }
  | Slot.drr_lat, a => { s with drr_lat := a }
  | Slot.kv_lat, a => { s with kv_lat := a }

def Slots.allNone : Slots (Option Raster) := ⟨none, none, none, none⟩

/-- `self.initial_state` (always the literal defaults in `_save_initial_state`). -/
structure InitState where
  bundle : Mut
  alpha : ℚ
  use_color_overlay : Bool

def defaultInitState : InitState := ⟨defaultMut, 1/2, false⟩

/-- The program state of `OrthogonalMatchUI` relevant to the claims. -/
structure Env where
  heap : List Mut
  live : ℕ
  images : Slots (Option Raster)
  original_images : Slots (Option Raster)
  alpha : ℚ
  use_color_overlay : Bool
  history : List Snap
  initial_state : InitState
  active_view : Option View
  drag_start : Option (ℤ × ℤ)
  filter_var : String
  current_adjustment_image : Slot
  ignore_rotation_callback : Bool

/-- Contents of the live dictionary bundle. -/
def curMut (e : Env) : Mut := e.heap.getD e.live defaultMut

/-- An in-place write through the live reference (a Python `d[k] = v`). -/
def setMut (f : Mut → Mut) (e : Env) : Env :=
  { e with heap := e.heap.set e.live (f (curMut e)) }

def DISPLAY_W : ℕ := 600
def DISPLAY_H : ℕ := 400

def drrSlot : View → Slot
  | View.ap => Slot.drr_ap
  | View.lat => Slot.drr_lat

def kvSlot : View → Slot
  | View.ap => Slot.kv_ap
  | View.lat => Slot.kv_lat

def viewOfSlot : Slot → View
  | Slot.drr_ap => View.ap
  | Slot.kv_ap => View.ap
  | Slot.drr_lat => View.lat
  | Slot.kv_lat => View.lat

def kvOffsetX (k : KvOffsets) : View → ℤ
  | View.ap => k.ap_x
  | View.lat => k.lat_x

def kvOffsetY (k : KvOffsets) : View → ℤ
  | View.ap => k.ap_y
  | View.lat => k.lat_y

/-- Python `int()` : truncation toward zero. -/
def pyInt (q : ℚ) : ℤ := if 0 ≤ q then ⌊q⌋ else -⌊-q⌋

/-- Python `%` for a positive real modulus (result in `[0, m)`). -/
def qmod360 (q : ℚ) : ℚ := q - 360 * ⌊q / 360⌋

/-- The PIL primitives the program calls, abstracted as parameters:
`Image.resize(.., LANCZOS)`, `Image.rotate(.., expand=False)`, the six
filter recipe bodies (each a deterministic PIL pipeline), and the three
`ImageEnhance` enhancement steps used by `_adjust_image`. -/
structure Prims where
  resize : Raster → ℤ → ℤ → Raster
  rot : Raster → ℚ → Raster
  f_content_balance : Raster → Raster
  f_collins_bone : Raster → Raster
  f_rizzler_low_dose : Raster → Raster
  f_soft_tissue : Raster → Raster
  f_jayhawk_local_contrast : Raster → Raster
  f_radfilter_match_assist : Raster → Raster
  enhance_brightness : Raster → ℚ → Raster
  enhance_contrast : Raster → ℚ → Raster
  enhance_sharpness : Raster → ℚ → Raster

/-- `_save_state`'s history append with eviction of index 0 past 20 entries
(`self.history.append(st)` followed by `self.history.pop(0)`). -/
def pushEntry (h : List Snap) (s : Snap) : List Snap :=
  if (h ++ [s]).length > 20 then (h ++ [s]).tail else h ++ [s]

/-- `_save_state`: copy the five dictionaries (a fresh heap cell) and push
an entry referencing the copy together with the current scalars. -/
def save_state (e : Env) : Env :=
  { e with
    heap := e.heap ++ [curMut e]
    history := pushEntry e.history ⟨e.heap.length, e.alpha, e.use_color_overlay⟩ }

/-- `_activate_drag` (a `<Button-1>` press on a view canvas). -/
def activate_drag (view : View) (x y : ℤ) (e : Env) : Env :=
  { e with
    active_view := some view
    drag_start := some (x, y)
    ignore_rotation_callback := false }

/-- `_drag_kv` (a `<B1-Motion>` event at window point `(x, y)`). -/
def drag_kv (view : View) (x y : ℤ) (e : Env) : Env :=
  match e.drag_start, (e.images.get (kvSlot view)).isSome with
  | some (sx, sy), true =>
    let dx := x - sx
    let dy := y - sy
    let e0 := { e with drag_start := some (x, y) }
    let e1 := if dx ≠ 0 then
        setMut (fun m => { m with kv_offsets :=
          match view with
          | View.ap => { m.kv_offsets with ap_x := m.kv_offsets.ap_x + dx }
          | View.lat => { m.kv_offsets with lat_x := m.kv_offsets.lat_x + dx } }) e0
      else e0
    let e2 := if dy ≠ 0 then
        setMut (fun m => { m with kv_offsets :=
          { m.kv_offsets with
            ap_y := m.kv_offsets.ap_y + dy
            lat_y := m.kv_offsets.lat_y + dy } }) e1
      else e1
    save_state e2
  | _, _ => e

/-- `_nudge_kv` (arrow keys). -/
def nudge_kv (dx dy : ℤ) (e : Env) : Env :=
  let e1 :=
    match e.active_view with
    | some v =>
      setMut (fun m => { m with kv_offsets :=
        match v with
        | View.ap => { m.kv_offsets with ap_x := m.kv_offsets.ap_x + dx }
        | View.lat => { m.kv_offsets with lat_x := m.kv_offsets.lat_x + dx } }) e
    | none => e
  let e2 := if dy ≠ 0 then
      setMut (fun m => { m with kv_offsets :=
        { m.kv_offsets with
          ap_y := m.kv_offsets.ap_y + dy
          lat_y := m.kv_offsets.lat_y + dy } }) e1
    else e1
  save_state e2

/-- `step = 0.1 if event.delta > 0 else -0.1`. -/
def zoomStep (delta : ℤ) : ℚ := if delta > 0 then 1/10 else -(1/10)

/-- `new = max(0.2, min(5.0, old + step))`. -/
def zoomNew (old : ℚ) (delta : ℤ) : ℚ := max (1/5) (min 5 (old + zoomStep delta))

/-- `_zoom` (`<Control-MouseWheel>` with wheel delta and cursor `(cx, cy)`
in canvas coordinates). -/
def zoom (view : View) (delta : ℤ) (cx cy : ℚ) (e : Env) : Env :=
  if ((e.images.get (drrSlot view)).isSome && (e.images.get (kvSlot view)).isSome) then
    if zoomNew ((curMut e).zoom_levels.get view) delta = (curMut e).zoom_levels.get view then e
    else
      save_state (setMut (fun m =>
        { m with
          pan_offsets := m.pan_offsets.set view
            ((m.pan_offsets.get view).1 +
               cx * (1 - zoomNew ((curMut e).zoom_levels.get view) delta /
                 (curMut e).zoom_levels.get view),
             (m.pan_offsets.get view).2 +
               cy * (1 - zoomNew ((curMut e).zoom_levels.get view) delta /
                 (curMut e).zoom_levels.get view))
          zoom_levels := m.zoom_levels.set view
            (zoomNew ((curMut e).zoom_levels.get view) delta) }) e)
  else e

/-- `_rotate_active` (the Rotate AP slider callback). -/
def rotate_active (val : ℚ) (e : Env) : Env :=
  if e.ignore_rotation_callback || e.active_view ≠ some View.ap then e
  else
    save_state (setMut (fun m => { m with rotations := { m.rotations with ap := val } }) e)

/-- `_mouse_scroll` (plain `<MouseWheel>` on a view canvas). -/
def mouse_scroll (view : View) (delta : ℤ) (e : Env) : Env :=
  if view = View.ap then
    let d : ℚ := if delta > 0 then 1 else -1
    save_state
      { setMut (fun m =>
          { m with rotations := { m.rotations with ap := qmod360 (m.rotations.ap + d) } }) e
        with ignore_rotation_callback := false }
  else e

/-- `_adjust_image` (a Brightness / Contrast / Sharpness slider move).
The slider value is written into `adjustment_values` first; only when the
target slot has a loaded original is the enhancement chain re-run and a
history entry pushed. -/
def adjust_image (P : Prims) (kind : AdjKind) (value : ℚ) (e : Env) : Env :=
  let v := viewOfSlot e.current_adjustment_image
  let e1 := setMut (fun m =>
    { m with adjustment_values := m.adjustment_values.setKind kind v value }) e
  match e.original_images.get e.current_adjustment_image with
  | none => e1
  | some original =>
    let m := curMut e1
    let img := P.enhance_brightness original (m.adjustment_values.brightness.get v)
    let img := P.enhance_contrast img (m.adjustment_values.contrast.get v)
    let img := P.enhance_sharpness img (m.adjustment_values.sharpness.get v)
    save_state
      { e1 with images := e1.images.set e.current_adjustment_image (some img) }

/-- `_reset_adjustments`. -/
def reset_adjustments (e : Env) : Env :=
  let v := viewOfSlot e.current_adjustment_image
  let e1 := setMut (fun m =>
    { m with adjustment_values :=
        ((m.adjustment_values.setKind AdjKind.brightness v 1).setKind
          AdjKind.contrast v 1).setKind AdjKind.sharpness v 1 }) e
  let e2 :=
    match e.original_images.get e.current_adjustment_image with
    | some o => { e1 with images := e1.images.set e.current_adjustment_image (some o) }
    | none => e1
  save_state e2

/-- `_select_image_for_adjustment` (a thumbnail click or the Adjust menu). -/
def select_image_for_adjustment (slot : Slot) (e : Env) : Env :=
  match e.images.get slot with
  | none => e
  | some _ => { e with current_adjustment_image := slot }

/-- The six recognized filter names, and the dispatch table `funcs` of
`_apply_selected_filter` (Collins / Rizzler effects intentionally swapped
in the source). -/
def filterNames : List String :=
  ["Washburn Ichabod Balance", "Low-Dose Boost", "Skeletal Emphasis (Collins)",
   "Local Contrast (Jayhawk)", "Soft Tissue Enhance", "RadFilter (Match Assist)"]

def filterFuncs (P : Prims) (name : String) : Option (Raster → Raster) :=
  if name = "Washburn Ichabod Balance" then some P.f_content_balance
  else if name = "Low-Dose Boost" then some P.f_collins_bone
  else if name = "Skeletal Emphasis (Collins)" then some P.f_rizzler_low_dose
  else if name = "Local Contrast (Jayhawk)" then some P.f_jayhawk_local_contrast
  else if name = "Soft Tissue Enhance" then some P.f_soft_tissue
  else if name = "RadFilter (Match Assist)" then some P.f_radfilter_match_assist
  else none

/-- `_apply_selected_filter`: always computed from a fresh copy of the
target slot's *original* raster; a missing name (`KeyError`) or missing
original leaves all state unchanged. -/
def apply_selected_filter (P : Prims) (e : Env) : Env :=
  if e.filter_var = "Select Filter" then e
  else
    match e.original_images.get e.current_adjustment_image with
    | none => e
    | some src =>
      match filterFuncs P e.filter_var with
      | none => e
      | some f =>
        save_state
          { e with images := e.images.set e.current_adjustment_image (some (f src)) }

/-- `_reset_to_default`: restore working rasters from originals, reassign
the five dictionaries from fresh copies of `initial_state`, restore the
scalars, deactivate the view, then push a history entry. -/
def reset_to_default (e : Env) : Env :=
  let restore : Option Raster → Option Raster → Option Raster := fun img orig =>
    match orig with
    | some o => some o
    | none => img
  let imgs : Slots (Option Raster) :=
    ⟨restore e.images.drr_ap e.original_images.drr_ap,
     restore e.images.kv_ap e.original_images.kv_ap,
     restore e.images.drr_lat e.original_images.drr_lat,
     restore e.images.kv_lat e.original_images.kv_lat⟩
  let e1 := { e with
    images := imgs
    heap := e.heap ++ [e.initial_state.bundle]
    live := e.heap.length
    alpha := e.initial_state.alpha
    use_color_overlay := e.initial_state.use_color_overlay
    ignore_rotation_callback := false
    active_view := none }
  save_state e1

/-- `_undo_last_action`: `none` models the early return with the
"Nothing to undo" status; otherwise the top entry is popped and the five
live dictionary references are *aliased* to the new top entry's bundle. -/
def undo_last_action (e : Env) : Option Env :=
  if e.history.length ≤ 1 then none
  else
    some { e with
      history := e.history.dropLast
      live := ((e.history.dropLast.getLast?).getD ⟨0, 0, false⟩).addr
      alpha := ((e.history.dropLast.getLast?).getD ⟨0, 0, false⟩).alpha
      use_color_overlay :=
        ((e.history.dropLast.getLast?).getD ⟨0, 0, false⟩).use_color_overlay }

/-- `_reset_to_initial_values` (called by `_load_dataset` on success):
fresh default dictionaries, default scalars, no active view. -/
def reset_to_initial_values (e : Env) : Env :=
  { e with
    heap := e.heap ++ [defaultMut]
    live := e.heap.length
    alpha := 1/2
    use_color_overlay := false
    ignore_rotation_callback := false
    active_view := none }

def loadedCount (files : Slots (Option Raster)) : ℕ :=
  (if (files.drr_ap).isSome then 1 else 0) + (if (files.kv_ap).isSome then 1 else 0) +
  (if (files.drr_lat).isSome then 1 else 0) + (if (files.kv_lat).isSome then 1 else 0)

/-- `_load_dataset` for a dataset directory that resolved to the given
decoded rasters per slot (`none` = no file with that prefix / load error).
Both `self.images` and `self.original_images` are cleared first, then
populated; only when at least one image loaded are the transform state and
`initial_state` reset.  `self.history` is not touched. -/
def load_dataset (files : Slots (Option Raster)) (e : Env) : Env :=
  let cleared := { e with images := Slots.allNone, original_images := Slots.allNone }
  let populated := { cleared with images := files, original_images := files }
  if 0 < loadedCount files then
    { reset_to_initial_values populated with initial_state := defaultInitState }
  else cleared

/-- `_init_state` followed by `_save_initial_state` and the `__init__`
baseline `_save_state` call. -/
def initEnv : Env :=
  { heap := [defaultMut]
    live := 0
    images := Slots.allNone
    original_images := Slots.allNone
    alpha := 1/2
    use_color_overlay := false
    history := []
    initial_state := defaultInitState
    active_view := none
    drag_start := none
    filter_var := "Select Filter"
    current_adjustment_image := Slot.drr_ap
    ignore_rotation_callback := false }

def defaultEnv : Env := save_state initEnv

/-! ### Compositor (`_update_match_overlay` / `_create_color_overlay`) -/

/-- ITU-R 601-2 luminance used by PIL `convert("L")`. -/
def lum (c : RGB) : ℚ := (299 * c.r + 587 * c.g + 114 * c.b) / 1000

/-- `Image.new("RGB", (W, H), (0,0,0))` followed by `.paste(img, (ox, oy))`:
pixels covered by the pasted raster take its values, the rest stay black. -/
def pasteOnBlack (W H : ℕ) (img : Raster) (ox oy : ℤ) : Raster :=
  ⟨W, H, fun x y =>
    if 0 ≤ (x : ℤ) - ox ∧ (x : ℤ) - ox < img.w ∧ 0 ≤ (y : ℤ) - oy ∧ (y : ℤ) - oy < img.h
    then img.pix ((x : ℤ) - ox).toNat ((y : ℤ) - oy).toNat
    else blackRGB⟩

/-- `Image.blend(a, b, alpha)` : per-pixel `(1 - alpha)·a + alpha·b`. -/
def imageBlend (a b : Raster) (al : ℚ) : Raster :=
  ⟨a.w, a.h, fun x y =>
    let p := a.pix x y
    let q := b.pix x y
    ⟨(1 - al) * p.r + al * q.r, (1 - al) * p.g + al * q.g, (1 - al) * p.b + al * q.b⟩⟩

/-- `_create_color_overlay`: R channel from the DRR canvas's luminance,
G and B both from the KV canvas's luminance. -/
def create_color_overlay (drr_img kv_img : Raster) : Raster :=
  ⟨drr_img.w, drr_img.h, fun x y =>
    ⟨lum (drr_img.pix x y), lum (kv_img.pix x y), lum (kv_img.pix x y)⟩⟩

/-- One view's body of `_update_match_overlay`: `none` when either working
raster is absent (the `continue` branch). -/
def update_match_overlay (P : Prims) (e : Env) (view : View) : Option Raster :=
  match e.images.get (drrSlot view), e.images.get (kvSlot view) with
  | some drr, some kv =>
    let m := curMut e
    let z := m.zoom_levels.get view
    let px := (m.pan_offsets.get view).1
    let py := (m.pan_offsets.get view).2
    let sw := pyInt ((DISPLAY_W : ℚ) * z)
    let sh := pyInt ((DISPLAY_H : ℚ) * z)
    let drr_scaled := P.resize drr sw sh
    let kv_scaled0 := P.resize kv sw sh
    let kv_scaled :=
      if view = View.ap ∧ m.rotations.ap ≠ 0 then P.rot kv_scaled0 m.rotations.ap
      else kv_scaled0
    let dx_rel := kvOffsetX m.kv_offsets view
    let dy_rel := kvOffsetY m.kv_offsets view
    let drr_view := pasteOnBlack DISPLAY_W DISPLAY_H drr_scaled (-(pyInt px)) (-(pyInt py))
    let kv_view := pasteOnBlack DISPLAY_W DISPLAY_H kv_scaled (dx_rel - pyInt px) (dy_rel - pyInt py)
    some (if e.use_color_overlay then create_color_overlay drr_view kv_view
          else imageBlend drr_view kv_view e.alpha)
  | _, _ => none

/-- Stated from the spec's words (claim C2), for comparison with
`update_match_overlay`: the displayed pixel at `(x, y)` is the merge of the
two black canvases carrying the scaled DRR pasted at `(−pan.x, −pan.y)`
and the (possibly rotated) scaled KV pasted at
`(kv_offset.x − pan.x, kv_offset.y − pan.y)`; the merge is the linear blend
`(1 − alpha)·DRR + alpha·KV` per channel, or, with color overlay on, the
RGB triple (DRR luminance, KV luminance, KV luminance). -/
def specDisplayPixel (drrS kvS : Raster) (pan : ℚ × ℚ) (kx ky : ℤ)
    (al : ℚ) (overlay : Bool) (x y : ℕ) : RGB :=
  let dox : ℤ := -(pyInt pan.1)
  let doy : ℤ := -(pyInt pan.2)
  let kox : ℤ := kx - pyInt pan.1
  let koy : ℤ := ky - pyInt pan.2
  let dPix :=
    if 0 ≤ (x : ℤ) - dox ∧ (x : ℤ) - dox < drrS.w ∧ 0 ≤ (y : ℤ) - doy ∧ (y : ℤ) - doy < drrS.h
    then drrS.pix ((x : ℤ) - dox).toNat ((y : ℤ) - doy).toNat
    else blackRGB
  let kPix :=
    if 0 ≤ (x : ℤ) - kox ∧ (x : ℤ) - kox < kvS.w ∧ 0 ≤ (y : ℤ) - koy ∧ (y : ℤ) - koy < kvS.h
    then kvS.pix ((x : ℤ) - kox).toNat ((y : ℤ) - koy).toNat
    else blackRGB
  if overlay then ⟨lum dPix, lum kPix, lum kPix⟩
  else
    ⟨(1 - al) * dPix.r + al * kPix.r,
     (1 - al) * dPix.g + al * kPix.g,
     (1 - al) * dPix.b + al * kPix.b⟩

/-! ### Event dispatch -/

/-- The discrete user gestures / callbacks acting on the state. -/
inductive Op where
  | activateDrag (view : View) (x y : ℤ)
  | dragKv (view : View) (x y : ℤ)
  | nudgeKv (dx dy : ℤ)
  | zoomAt (view : View) (delta : ℤ) (cx cy : ℚ)
  | rotateActive (val : ℚ)
  | mouseScroll (view : View) (delta : ℤ)
  | adjustImage (kind : AdjKind) (value : ℚ)
  | resetAdjustments
  | selectImage (slot : Slot)
  | setFilterVar (name : String)
  | applyFilter
  | undoOp
  | resetDefault
  | loadData (files : Slots (Option Raster))
  | setAlpha (v : ℚ)
  | setColorOverlay (b : Bool)

def stepOp (P : Prims) : Op → Env → Env
  | Op.activateDrag view x y, e => activate_drag view x y e
  | Op.dragKv view x y, e => drag_kv view x y e
  | Op.nudgeKv dx dy, e => nudge_kv dx dy e
  | Op.zoomAt view delta cx cy, e => zoom view delta cx cy e
  | Op.rotateActive val, e => rotate_active val e
  | Op.mouseScroll view delta, e => mouse_scroll view delta e
  | Op.adjustImage kind value, e => adjust_image P kind value e
  | Op.resetAdjustments, e => reset_adjustments e
  | Op.selectImage slot, e => select_image_for_adjustment slot e
  | Op.setFilterVar name, e => { e with filter_var := name }
  | Op.applyFilter, e => apply_selected_filter P e
  | Op.undoOp, e => (undo_last_action e).getD e
  | Op.resetDefault, e => reset_to_default e
  | Op.loadData files, e => load_dataset files e
  | Op.setAlpha v, e => { e with alpha := v }
  | Op.setColorOverlay b, e => { e with use_color_overlay := b }

def runOps (P : Prims) (e : Env) (ops : List Op) : Env :=
  ops.foldl (fun e op => stepOp P op e) e

/-- The observable mutable state: the contents of the live dictionary
bundle, the two global blend scalars, and the four working rasters. -/
structure Obs where
  bundle : Mut
  alpha : ℚ
  use_color_overlay : Bool
  images : Slots (Option Raster)

def obs (e : Env) : Obs := ⟨curMut e, e.alpha, e.use_color_overlay, e.images⟩

/-- `e'` extends `e`'s history by exactly one entry recording `e'`'s full
mutable scalar state (with ring-buffer eviction). -/
def pushed (e e' : Env) : Prop :=
  ∃ s : Snap,
    e'.history = pushEntry e.history s ∧
    e'.heap.getD s.addr defaultMut = curMut e' ∧
    s.alpha = e'.alpha ∧
    s.use_color_overlay = e'.use_color_overlay

/-- A concrete instantiation of the PIL primitives, used by witnesses. -/
def trivialPrims : Prims where
  resize := fun r _ _ => r
  rot := fun r _ => r
  f_content_balance := id
  f_collins_bone := id
  f_rizzler_low_dose := id
  f_soft_tissue := id
  f_jayhawk_local_contrast := id
  f_radfilter_match_assist := id
  enhance_brightness := fun r _ => r
  enhance_contrast := fun r _ => r
  enhance_sharpness := fun r _ => r

/-- A concrete 1×1 raster used by witnesses and counterexamples. -/
def testRaster : Raster := ⟨1, 1, fun _ _ => ⟨100, 100, 100⟩⟩

/-- Ops that belong to the KV drag / nudge gesture family (claim C3). -/
def isKvOp : Op → Bool
  | Op.activateDrag _ _ _ => true
  | Op.dragKv _ _ _ => true
  | Op.nudgeKv _ _ => true
  | _ => false

/-- The state mutators of the interaction layer (claim C4): the transform,
adjustment, filter and reset gestures plus the two global blend controls. -/
def isMutatorOp : Op → Bool
  | Op.dragKv _ _ _ => true
  | Op.nudgeKv _ _ => true
  | Op.zoomAt _ _ _ _ => true
  | Op.rotateActive _ => true
  | Op.mouseScroll _ _ => true
  | Op.adjustImage _ _ => true
  | Op.resetAdjustments => true
  | Op.applyFilter => true
  | Op.resetDefault => true
  | Op.setAlpha _ => true
  | Op.setColorOverlay _ => true
  | _ => false

/-- The two global blend controls, whose Tk callbacks only recompute the
overlay and never call `_save_state`. -/
def isGlobalBlendOp : Op → Bool
  | Op.setAlpha _ => true
  | Op.setColorOverlay _ => true
  | _ => false

/-- An adjustment slider move whose target slot has no loaded original:
`_adjust_image` then returns after writing the slider value, before
`_save_state`. -/
def adjustBlocked : Op → Env → Bool
  | Op.adjustImage _ _, e => (e.original_images.get e.current_adjustment_image).isNone
  | _, _ => false

/-- Strengthened inductive invariant for claim C3. -/
def KvInv (e : Env) : Prop :=
  e.live < e.heap.length ∧
  (curMut e).kv_offsets.ap_y = (curMut e).kv_offsets.lat_y

/-! ### Concrete states for witnesses and counterexamples -/

/-- A dataset supplying both AP rasters. -/
def filesApPair : Slots (Option Raster) := ⟨some testRaster, some testRaster, none, none⟩

/-- A dataset supplying only the DRR-AP raster. -/
def filesDrrAp : Slots (Option Raster) := ⟨some testRaster, none, none, none⟩

/-- Startup state after loading the AP pair. -/
def envAp : Env := load_dataset filesApPair defaultEnv

/-- Startup state with the AP pair present in both raster stores
(a convenient concrete state for witnesses). -/
def envApW : Env := { defaultEnv with images := filesApPair, original_images := filesApPair }

/-- `envApW` with the Soft Tissue Enhance filter selected. -/
def envFilterW : Env := { envApW with filter_var := "Soft Tissue Enhance" }

/-- `envApW` after one AP rotation wheel tick (rotation state differs,
everything LAT-relevant is unchanged). -/
def envRotW : Env := stepOp trivialPrims (Op.mouseScroll View.ap 1) envApW

/-- Primitives whose `rotate` differs from `trivialPrims` everywhere. -/
def blackoutPrims : Prims :=
  { trivialPrims with rot := fun r _ => ⟨r.w, r.h, fun _ _ => blackRGB⟩ }

/-- A gesture sequence of KV drag / nudge operations (claim C3's witness). -/
def kvOpsW : List Op :=
  [Op.activateDrag View.ap 0 0, Op.nudgeKv 1 2, Op.dragKv View.ap 3 4,
   Op.activateDrag View.lat 5 5, Op.nudgeKv (-2) 7, Op.dragKv View.lat 6 1]

/-- Startup state after one vertical nudge (history length 2). -/
def envNudged : Env := stepOp trivialPrims (Op.nudgeKv 0 1) defaultEnv

/-- Blend slider moved to 0.7 from the startup state. -/
def envAlpha : Env := stepOp trivialPrims (Op.setAlpha (7/10)) defaultEnv

/-- Claim C6 trace, before the final drag: load the AP pair, press at
`(0,0)` on the AP view, drag to `(1,0)`, then undo. -/
def c6Before : Env :=
  runOps trivialPrims defaultEnv
    [Op.loadData filesApPair, Op.activateDrag View.ap 0 0,
     Op.dragKv View.ap 1 0, Op.undoOp]

/-- Claim C6 trace, after the final drag to `(2,0)`. -/
def c6After : Env := stepOp trivialPrims (Op.dragKv View.ap 2 0) c6Before

/-- Numbered history entries for the eviction counterexample (claim C5). -/
def snapN (i : ℕ) : Snap := ⟨i, 0, false⟩

/-- 21 consecutive pushes of entries 1..21 onto an empty history. -/
def hist21 : List Snap := ((List.range 21).map fun i => snapN (i + 1)).foldl pushEntry []

/-! ### Basic lemmas about the state operations -/

@[simp] theorem PerView.get_set_self {α : Type} (p : PerView α) (v : View) (a : α) :
    (p.set v a).get v = a := by cases v <;> rfl

@[simp] theorem setMut_live (f : Mut → Mut) (e : Env) : (setMut f e).live = e.live := rfl

@[simp] theorem setMut_history (f : Mut → Mut) (e : Env) :
    (setMut f e).history = e.history := rfl

@[simp] theorem setMut_alpha (f : Mut → Mut) (e : Env) : (setMut f e).alpha = e.alpha := rfl

@[simp] theorem setMut_overlay (f : Mut → Mut) (e : Env) :
    (setMut f e).use_color_overlay = e.use_color_overlay := rfl

@[simp] theorem setMut_images (f : Mut → Mut) (e : Env) : (setMut f e).images = e.images := rfl

@[simp] theorem setMut_originals (f : Mut → Mut) (e : Env) :
    (setMut f e).original_images = e.original_images := rfl

@[simp] theorem setMut_heap_length (f : Mut → Mut) (e : Env) :
    (setMut f e).heap.length = e.heap.length := by
  show (e.heap.set _ _).length = _
  simp

@[simp] theorem save_state_live (e : Env) : (save_state e).live = e.live := rfl

@[simp] theorem save_state_alpha (e : Env) : (save_state e).alpha = e.alpha := rfl

@[simp] theorem save_state_overlay (e : Env) :
    (save_state e).use_color_overlay = e.use_color_overlay := rfl

@[simp] theorem save_state_images (e : Env) : (save_state e).images = e.images := rfl

@[simp] theorem save_state_history (e : Env) :
    (save_state e).history = pushEntry e.history ⟨e.heap.length, e.alpha, e.use_color_overlay⟩ :=
  rfl

@[simp] theorem save_state_heap_length (e : Env) :
    (save_state e).heap.length = e.heap.length + 1 := by
  show (e.heap ++ [_]).length = _
  simp

/-- `_save_state` copies the live bundle; the live contents are unchanged. -/
theorem curMut_save_state (e : Env) : curMut (save_state e) = curMut e := by
  show (e.heap ++ [curMut e]).getD e.live defaultMut = curMut e
  rcases lt_or_ge e.live e.heap.length with h | h
  · exact List.getD_append _ _ _ _ h
  · rw [List.getD_append_right _ _ _ _ h]
    rcases eq_or_lt_of_le h with h' | h'
    · rw [h']
      simp
    · rw [List.getD_eq_default _ _ (by simp; omega)]
      show _ = e.heap.getD e.live defaultMut
      rw [List.getD_eq_default _ _ h]

/-- The entry pushed by `_save_state` references a copy of the live bundle. -/
theorem save_state_new_cell (e : Env) :
    (save_state e).heap.getD e.heap.length defaultMut = curMut e := by
  show (e.heap ++ [curMut e]).getD e.heap.length defaultMut = curMut e
  rw [List.getD_append_right _ _ _ _ le_rfl]
  simp

/-- Writing through the live reference updates the live contents. -/
theorem curMut_setMut (f : Mut → Mut) (e : Env) (h : e.live < e.heap.length) :
    curMut (setMut f e) = f (curMut e) := by
  show (e.heap.set e.live (f (curMut e))).getD e.live defaultMut = f (curMut e)
  rw [List.getD_eq_getElem _ _ (by simpa using h)]
  simp

/-- Any mutate-then-`_save_state` handler pushes one entry recording the
new full mutable scalar state. -/
theorem pushed_of_save (e0 e : Env) (hh : e.history = e0.history) :
    pushed e0 (save_state e) := by
  refine ⟨⟨e.heap.length, e.alpha, e.use_color_overlay⟩, ?_, ?_, rfl, rfl⟩
  · rw [save_state_history, hh]
  · rw [curMut_save_state]
    exact save_state_new_cell e

/-- The ring-buffer append keeps the history at no more than 20 entries. -/
theorem pushEntry_length_le (h : List Snap) (s : Snap) (hh : h.length ≤ 20) :
    (pushEntry h s).length ≤ 20 := by
  unfold pushEntry
  split <;> simp_all

/-- `pushEntry` keeps the most recent 20 entries of the appended list. -/
theorem pushEntry_eq_drop (h : List Snap) (s : Snap) (hh : h.length ≤ 20) :
    pushEntry h s = (h ++ [s]).drop ((h ++ [s]).length - 20) := by
  unfold pushEntry
  split
  · next hc =>
    have hl : (h ++ [s]).length - 20 = 1 := by
      simp only [List.length_append, List.length_singleton] at *
      omega
    rw [hl, List.drop_one]
  · next hc =>
    have hl : (h ++ [s]).length - 20 = 0 := by
      simp only [List.length_append, List.length_singleton] at *
      omega
    rw [hl, List.drop_zero]

/-- Folding pushes over any starting history of legal length keeps exactly
the most recent 20 of all entries ever present. -/
theorem foldl_pushEntry_eq_drop (ss : List Snap) :
    ∀ h : List Snap, h.length ≤ 20 →
      ss.foldl pushEntry h = (h ++ ss).drop ((h ++ ss).length - 20) := by
  induction ss with
  | nil =>
    intro h hh
    simp [Nat.sub_eq_zero_of_le hh]
  | cons s ss ih =>
    intro h hh
    have hlen : (pushEntry h s).length ≤ 20 := pushEntry_length_le h s hh
    have hstep := pushEntry_eq_drop h s hh
    have hk : (h ++ [s]).length - 20 ≤ (h ++ [s]).length := Nat.sub_le _ _
    calc (s :: ss).foldl pushEntry h = ss.foldl pushEntry (pushEntry h s) := rfl
      _ = (pushEntry h s ++ ss).drop ((pushEntry h s ++ ss).length - 20) := ih _ hlen
      _ = (h ++ (s :: ss)).drop ((h ++ (s :: ss)).length - 20) := by
          rw [hstep, ← List.drop_append_of_le_length hk, List.drop_drop]
          congr 1
          · simp
            omega
          · simp

/-! ### The C3 coupling invariant is inductive -/

theorem KvInv_ite (c : Prop) [Decidable c] (a b : Env) (ha : KvInv a) (hb : KvInv b) :
    KvInv (if c then a else b) := by
  split
  · exact ha
  · exact hb

theorem KvInv_save_state (e : Env) (h : KvInv e) : KvInv (save_state e) := by
  obtain ⟨h1, h2⟩ := h
  refine ⟨?_, ?_⟩
  · simp
    omega
  · rw [curMut_save_state]
    exact h2

theorem KvInv_setMut (e : Env) (f : Mut → Mut)
    (hf : ∀ m, m.kv_offsets.ap_y = m.kv_offsets.lat_y →
      (f m).kv_offsets.ap_y = (f m).kv_offsets.lat_y)
    (h : KvInv e) : KvInv (setMut f e) := by
  obtain ⟨h1, h2⟩ := h
  refine ⟨by simpa using h1, ?_⟩
  rw [curMut_setMut _ _ h1]
  exact hf _ h2

/-- Each drag / nudge / pointer-press gesture preserves the coupling
invariant: horizontal deltas touch only one x-offset, vertical deltas are
applied to both y-offsets. -/
theorem KvInv_step (P : Prims) (op : Op) (hop : isKvOp op = true) (e : Env)
    (h : KvInv e) : KvInv (stepOp P op e) := by
  cases op with
  | activateDrag view x y => exact h
  | dragKv view x y =>
    show KvInv (drag_kv view x y e)
    unfold drag_kv
    cases hds : e.drag_start with
    | none => exact h
    | some p =>
      obtain ⟨sx, sy⟩ := p
      cases hkv : (e.images.get (kvSlot view)).isSome with
      | false => exact h
      | true =>
        apply KvInv_save_state
        apply KvInv_ite
        · apply KvInv_setMut
          · intro m hm
            simpa using hm
          · apply KvInv_ite
            · apply KvInv_setMut
              · intro m hm
                cases view <;> simpa using hm
              · exact h
            · exact h
        · apply KvInv_ite
          · apply KvInv_setMut
            · intro m hm
              cases view <;> simpa using hm
            · exact h
          · exact h
  | nudgeKv dx dy =>
    show KvInv (nudge_kv dx dy e)
    unfold nudge_kv
    apply KvInv_save_state
    apply KvInv_ite
    · apply KvInv_setMut
      · intro m hm
        simpa using hm
      · cases hav : e.active_view with
        | none => exact h
        | some v =>
          apply KvInv_setMut
          · intro m hm
            cases v <;> simpa using hm
          · exact h
    · cases hav : e.active_view with
      | none => exact h
      | some v =>
        apply KvInv_setMut
        · intro m hm
          cases v <;> simpa using hm
        · exact h
  | zoomAt view delta cx cy => simp [isKvOp] at hop
  | rotateActive val => simp [isKvOp] at hop
  | mouseScroll view delta => simp [isKvOp] at hop
  | adjustImage kind value => simp [isKvOp] at hop
  | resetAdjustments => simp [isKvOp] at hop
  | selectImage slot => simp [isKvOp] at hop
  | setFilterVar name => simp [isKvOp] at hop
  | applyFilter => simp [isKvOp] at hop
  | undoOp => simp [isKvOp] at hop
  | resetDefault => simp [isKvOp] at hop
  | loadData files => simp [isKvOp] at hop
  | setAlpha v => simp [isKvOp] at hop
  | setColorOverlay b => simp [isKvOp] at hop

theorem KvInv_runOps (P : Prims) (ops : List Op) :
    ∀ e : Env, KvInv e → (∀ op ∈ ops, isKvOp op = true) → KvInv (runOps P e ops) := by
  induction ops with
  | nil => intro e he _; exact he
  | cons op ops ih =>
    intro e he hops
    have h1 : isKvOp op = true := hops op (List.mem_cons_self _ _)
    have h2 : ∀ o ∈ ops, isKvOp o = true := fun o ho => hops o (List.mem_cons_of_mem _ ho)
    exact ih _ (KvInv_step P op h1 e he) h2

theorem KvInv_defaultEnv : KvInv defaultEnv := by
  constructor <;> decide

/-! ### Which operations push history entries -/

/-- Every interaction-layer mutator other than the two global blend
controls (and an adjustment whose target has no loaded original) either
leaves the state untouched or ends in `_save_state`. -/
theorem mutator_step_or_pushes (P : Prims) (op : Op) (e : Env)
    (h1 : isMutatorOp op = true) (h2 : isGlobalBlendOp op = false)
    (h3 : adjustBlocked op e = false) :
    stepOp P op e = e ∨ pushed e (stepOp P op e) := by
  cases op with
  | activateDrag view x y => simp [isMutatorOp] at h1
  | dragKv view x y =>
    simp only [stepOp]
    unfold drag_kv
    cases hds : e.drag_start with
    | none => exact Or.inl rfl
    | some p =>
      obtain ⟨sx, sy⟩ := p
      cases hkv : (e.images.get (kvSlot view)).isSome with
      | false => exact Or.inl rfl
      | true =>
        refine Or.inr (pushed_of_save e _ ?_)
        split <;> split <;> rfl
  | nudgeKv dx dy =>
    simp only [stepOp]
    unfold nudge_kv
    refine Or.inr (pushed_of_save e _ ?_)
    split
    · cases e.active_view <;> rfl
    · cases e.active_view <;> rfl
  | zoomAt view delta cx cy =>
    simp only [stepOp]
    unfold zoom
    split
    · split
      · exact Or.inl rfl
      · exact Or.inr (pushed_of_save e _ rfl)
    · exact Or.inl rfl
  | rotateActive val =>
    simp only [stepOp]
    unfold rotate_active
    split
    · exact Or.inl rfl
    · exact Or.inr (pushed_of_save e _ rfl)
  | mouseScroll view delta =>
    simp only [stepOp]
    unfold mouse_scroll
    split
    · exact Or.inr (pushed_of_save e _ rfl)
    · exact Or.inl rfl
  | adjustImage kind value =>
    simp only [stepOp]
    unfold adjust_image
    cases horig : e.original_images.get e.current_adjustment_image with
    | none =>
      exfalso
      simp [adjustBlocked, horig] at h3
    | some original => exact Or.inr (pushed_of_save e _ rfl)
  | resetAdjustments =>
    simp only [stepOp]
    unfold reset_adjustments
    cases horig : e.original_images.get e.current_adjustment_image with
    | none => exact Or.inr (pushed_of_save e _ rfl)
    | some o => exact Or.inr (pushed_of_save e _ rfl)
  | applyFilter =>
    simp only [stepOp]
    unfold apply_selected_filter
    split
    · exact Or.inl rfl
    · cases horig : e.original_images.get e.current_adjustment_image with
      | none => exact Or.inl rfl
      | some src =>
        cases hfun : filterFuncs P e.filter_var with
        | none => exact Or.inl rfl
        | some f => exact Or.inr (pushed_of_save e _ rfl)
  | selectImage slot => simp [isMutatorOp] at h1
  | setFilterVar name => simp [isMutatorOp] at h1
  | undoOp => simp [isMutatorOp] at h1
  | resetDefault =>
    simp only [stepOp]
    exact Or.inr (pushed_of_save e _ rfl)
  | loadData files => simp [isMutatorOp] at h1
  | setAlpha v => simp [isGlobalBlendOp] at h2
  | setColorOverlay b => simp [isGlobalBlendOp] at h2

theorem save_state_history_pushes (e0 x : Env) (h : x.history = e0.history) :
    ∃ s, (save_state x).history = pushEntry e0.history s :=
  ⟨⟨x.heap.length, x.alpha, x.use_color_overlay⟩, by rw [save_state_history, h]⟩

/-- Every operation leaves the history unchanged, pushes one ring-buffer
entry, or (undo) pops the top entry. -/
theorem stepOp_history_shape (P : Prims) (op : Op) (e : Env) :
    (stepOp P op e).history = e.history ∨
    (∃ s, (stepOp P op e).history = pushEntry e.history s) ∨
    (stepOp P op e).history = e.history.dropLast := by
  cases op with
  | activateDrag view x y => exact Or.inl rfl
  | dragKv view x y =>
    simp only [stepOp]
    unfold drag_kv
    cases hds : e.drag_start with
    | none => exact Or.inl rfl
    | some p =>
      obtain ⟨sx, sy⟩ := p
      cases hkv : (e.images.get (kvSlot view)).isSome with
      | false => exact Or.inl rfl
      | true =>
        refine Or.inr (Or.inl (save_state_history_pushes e _ ?_))
        split <;> split <;> rfl
  | nudgeKv dx dy =>
    simp only [stepOp]
    unfold nudge_kv
    refine Or.inr (Or.inl (save_state_history_pushes e _ ?_))
    split <;> cases e.active_view <;> rfl
  | zoomAt view delta cx cy =>
    simp only [stepOp]
    unfold zoom
    split
    · split
      · exact Or.inl rfl
      · exact Or.inr (Or.inl ⟨_, rfl⟩)
    · exact Or.inl rfl
  | rotateActive val =>
    simp only [stepOp]
    unfold rotate_active
    split
    · exact Or.inl rfl
    · exact Or.inr (Or.inl ⟨_, rfl⟩)
  | mouseScroll view delta =>
    simp only [stepOp]
    unfold mouse_scroll
    split
    · exact Or.inr (Or.inl ⟨_, rfl⟩)
    · exact Or.inl rfl
  | adjustImage kind value =>
    simp only [stepOp]
    unfold adjust_image
    cases horig : e.original_images.get e.current_adjustment_image with
    | none => exact Or.inl rfl
    | some original => exact Or.inr (Or.inl ⟨_, rfl⟩)
  | resetAdjustments =>
    simp only [stepOp]
    unfold reset_adjustments
    cases horig : e.original_images.get e.current_adjustment_image with
    | none => exact Or.inr (Or.inl ⟨_, rfl⟩)
    | some o => exact Or.inr (Or.inl ⟨_, rfl⟩)
  | applyFilter =>
    simp only [stepOp]
    unfold apply_selected_filter
    split
    · exact Or.inl rfl
    · cases horig : e.original_images.get e.current_adjustment_image with
      | none => exact Or.inl rfl
      | some src =>
        cases hfun : filterFuncs P e.filter_var with
        | none => exact Or.inl rfl
        | some f => exact Or.inr (Or.inl ⟨_, rfl⟩)
  | selectImage slot =>
    simp only [stepOp]
    unfold select_image_for_adjustment
    cases e.images.get slot <;> exact Or.inl rfl
  | setFilterVar name => exact Or.inl rfl
  | undoOp =>
    simp only [stepOp]
    unfold undo_last_action
    split
    · exact Or.inl rfl
    · exact Or.inr (Or.inr rfl)
  | resetDefault =>
    simp only [stepOp]
    exact Or.inr (Or.inl ⟨_, rfl⟩)
  | loadData files =>
    simp only [stepOp]
    unfold load_dataset
    split
    · exact Or.inl rfl
    · exact Or.inl rfl
  | setAlpha v => exact Or.inl rfl
  | setColorOverlay b => exact Or.inl rfl

/-! ### Claim C1 -/

/-- C1: Cursor-anchored zoom.  For every view with both its DRR and KV
rasters loaded, every start zoom `z0 ∈ [0.2, 5.0]` and cursor `(cx, cy)`,
`_zoom` applies a step of ±0.1 clamped so that the new zoom
`z1 = max(0.2, min(5.0, z0 ± 0.1))` stays in `[0.2, 5.0]`, and updates the
pan offset to `p' = p + (cx, cy) * (1 − z1/z0)`; if the clamp gives
`z1 = z0` (already at a bound), no state changes and no history entry is
pushed. -/
theorem zoom_cursor_anchored (e : Env) (v : View) (delta : ℤ) (cx cy : ℚ) (z1 : ℚ)
    (hd : (e.images.get (drrSlot v)).isSome = true)
    (hk : (e.images.get (kvSlot v)).isSome = true)
    (hlive : e.live < e.heap.length)
    (hlo : 1/5 ≤ (curMut e).zoom_levels.get v)
    (hhi : (curMut e).zoom_levels.get v ≤ 5)
    (hz1 : z1 = zoomNew ((curMut e).zoom_levels.get v) delta) :
    (1/5 ≤ z1 ∧ z1 ≤ 5) ∧
    (z1 = (curMut e).zoom_levels.get v → zoom v delta cx cy e = e) ∧
    (z1 ≠ (curMut e).zoom_levels.get v →
      (curMut (zoom v delta cx cy e)).zoom_levels.get v = z1 ∧
      (curMut (zoom v delta cx cy e)).pan_offsets.get v =
        (((curMut e).pan_offsets.get v).1 + cx * (1 - z1 / (curMut e).zoom_levels.get v),
         ((curMut e).pan_offsets.get v).2 + cy * (1 - z1 / (curMut e).zoom_levels.get v)) ∧
      pushed e (zoom v delta cx cy e)) := by
  have hcond : ((e.images.get (drrSlot v)).isSome && (e.images.get (kvSlot v)).isSome) = true := by
    rw [hd, hk]
    rfl
  subst hz1
  refine ⟨?_, ?_, ?_⟩
  · unfold zoomNew
    exact ⟨le_max_left _ _, max_le (by norm_num) (min_le_left _ _)⟩
  · intro h
    unfold zoom
    rw [if_pos hcond, if_pos h]
  · intro h
    unfold zoom
    rw [if_pos hcond, if_neg h]
    refine ⟨?_, ?_, pushed_of_save e _ rfl⟩
    · rw [curMut_save_state, curMut_setMut _ _ hlive]
      simp
    · rw [curMut_save_state, curMut_setMut _ _ hlive]
      simp

theorem envApW_zoom_val : (curMut envApW).zoom_levels.get View.ap = 1 := rfl

theorem zoomNew_one_up : zoomNew 1 1 = 11/10 := by
  rw [zoomNew, zoomStep, if_pos (by norm_num : (1:ℤ) > 0),
    show (1:ℚ) + 1/10 = 11/10 by norm_num,
    min_eq_right (by norm_num), max_eq_right (by norm_num)]

/-- Witness for C1: from the loaded startup state, one zoom-in tick at
cursor `(10, 20)` takes the AP zoom from 1.0 to 1.1 and the pan from
`(0,0)` to `(10·(1−1.1), 20·(1−1.1))`. -/
theorem zoom_cursor_anchored_witness :
    ((envApW.images.get (drrSlot View.ap)).isSome = true) ∧
    ((envApW.images.get (kvSlot View.ap)).isSome = true) ∧
    envApW.live < envApW.heap.length ∧
    (1/5 ≤ (curMut envApW).zoom_levels.get View.ap) ∧
    ((curMut envApW).zoom_levels.get View.ap ≤ 5) ∧
    ((11/10 : ℚ) = zoomNew ((curMut envApW).zoom_levels.get View.ap) 1) ∧
    (curMut (zoom View.ap 1 10 20 envApW)).zoom_levels.get View.ap = 11/10 ∧
    (curMut (zoom View.ap 1 10 20 envApW)).pan_offsets.get View.ap =
      (((curMut envApW).pan_offsets.get View.ap).1 +
         10 * (1 - (11/10) / (curMut envApW).zoom_levels.get View.ap),
       ((curMut envApW).pan_offsets.get View.ap).2 +
         20 * (1 - (11/10) / (curMut envApW).zoom_levels.get View.ap)) := by
  have hz1 : (11/10 : ℚ) = zoomNew ((curMut envApW).zoom_levels.get View.ap) 1 := by
    rw [envApW_zoom_val, zoomNew_one_up]
  have hlo : (1:ℚ)/5 ≤ (curMut envApW).zoom_levels.get View.ap := by
    rw [envApW_zoom_val]
    norm_num
  have hhi : (curMut envApW).zoom_levels.get View.ap ≤ 5 := by
    rw [envApW_zoom_val]
    norm_num
  have hne : (11/10 : ℚ) ≠ (curMut envApW).zoom_levels.get View.ap := by
    rw [envApW_zoom_val]
    norm_num
  have h := zoom_cursor_anchored envApW View.ap 1 10 20 (11/10)
    rfl rfl (by decide) hlo hhi hz1
  have h2 := h.2.2 hne
  exact ⟨rfl, rfl, by decide, hlo, hhi, hz1, h2.1, h2.2.1⟩

/-! ### Claim C2 -/

/-- C2: Compositor merge.  For every view whose DRR and KV working rasters
are both present, the displayed raster is the `baseWidth × baseHeight`
(600×400) canvas whose pixel at `(x, y)` is given by pasting the scaled
DRR at `(−pan.x, −pan.y)` and the scaled (and, for AP with nonzero
rotation, rotated) KV at `(kv_offset.x − pan.x, kv_offset.y − pan.y)` onto
black canvases and merging them: the per-pixel linear blend
`(1−alpha)·DRR + alpha·KV` when `color_overlay` is off, and the RGB triple
(DRR luminance, KV luminance, KV luminance) when it is on. -/
theorem compositor_merge_spec (P : Prims) (e : Env) (v : View) (drr kv : Raster)
    (hd : e.images.get (drrSlot v) = some drr)
    (hk : e.images.get (kvSlot v) = some kv) :
    ∃ R, update_match_overlay P e v = some R ∧ R.w = DISPLAY_W ∧ R.h = DISPLAY_H ∧
      ∀ x y, R.pix x y =
        specDisplayPixel
          (P.resize drr (pyInt ((DISPLAY_W : ℚ) * (curMut e).zoom_levels.get v))
            (pyInt ((DISPLAY_H : ℚ) * (curMut e).zoom_levels.get v)))
          (if v = View.ap ∧ (curMut e).rotations.ap ≠ 0 then
              P.rot (P.resize kv (pyInt ((DISPLAY_W : ℚ) * (curMut e).zoom_levels.get v))
                (pyInt ((DISPLAY_H : ℚ) * (curMut e).zoom_levels.get v)))
                ((curMut e).rotations.ap)
            else P.resize kv (pyInt ((DISPLAY_W : ℚ) * (curMut e).zoom_levels.get v))
              (pyInt ((DISPLAY_H : ℚ) * (curMut e).zoom_levels.get v)))
          ((curMut e).pan_offsets.get v)
          (kvOffsetX (curMut e).kv_offsets v) (kvOffsetY (curMut e).kv_offsets v)
          e.alpha e.use_color_overlay x y := by
  unfold update_match_overlay
  rw [hd, hk]
  refine ⟨_, rfl, ?_, ?_, ?_⟩
  · cases e.use_color_overlay <;> rfl
  · cases e.use_color_overlay <;> rfl
  · intro x y
    cases e.use_color_overlay <;> rfl

/-- Witness for C2, at the loaded startup state with trivial resampling
primitives on the AP view. -/
theorem compositor_merge_spec_witness :
    envApW.images.get (drrSlot View.ap) = some testRaster ∧
    envApW.images.get (kvSlot View.ap) = some testRaster ∧
    ∃ R, update_match_overlay trivialPrims envApW View.ap = some R ∧
      R.w = DISPLAY_W ∧ R.h = DISPLAY_H ∧
      ∀ x y, R.pix x y =
        specDisplayPixel
          (trivialPrims.resize testRaster
            (pyInt ((DISPLAY_W : ℚ) * (curMut envApW).zoom_levels.get View.ap))
            (pyInt ((DISPLAY_H : ℚ) * (curMut envApW).zoom_levels.get View.ap)))
          (if View.ap = View.ap ∧ (curMut envApW).rotations.ap ≠ 0 then
              trivialPrims.rot (trivialPrims.resize testRaster
                (pyInt ((DISPLAY_W : ℚ) * (curMut envApW).zoom_levels.get View.ap))
                (pyInt ((DISPLAY_H : ℚ) * (curMut envApW).zoom_levels.get View.ap)))
                ((curMut envApW).rotations.ap)
            else trivialPrims.resize testRaster
              (pyInt ((DISPLAY_W : ℚ) * (curMut envApW).zoom_levels.get View.ap))
              (pyInt ((DISPLAY_H : ℚ) * (curMut envApW).zoom_levels.get View.ap)))
          ((curMut envApW).pan_offsets.get View.ap)
          (kvOffsetX (curMut envApW).kv_offsets View.ap)
          (kvOffsetY (curMut envApW).kv_offsets View.ap)
          envApW.alpha envApW.use_color_overlay x y :=
  ⟨rfl, rfl, compositor_merge_spec trivialPrims envApW View.ap testRaster testRaster rfl rfl⟩

/-! ### Claim C3 -/

/-- C3: Cross-view vertical coupling invariant.  Starting from the default
state, after every sequence of KV drag and nudge gestures on either view
(each vertical delta is added to both views' y-offsets, each horizontal
delta only to the gestured view's x-offset),
`kv_offsets.ap_y = kv_offsets.lat_y` holds; as every prefix of such a
sequence is again such a sequence, the equality holds after each step. -/
theorem kv_vertical_coupling (P : Prims) (ops : List Op)
    (hops : ∀ op ∈ ops, isKvOp op = true) :
    (curMut (runOps P defaultEnv ops)).kv_offsets.ap_y
      = (curMut (runOps P defaultEnv ops)).kv_offsets.lat_y :=
  (KvInv_runOps P ops defaultEnv KvInv_defaultEnv hops).2

/-- Witness for C3: a concrete mixed drag / nudge gesture sequence. -/
theorem kv_vertical_coupling_witness :
    (∀ op ∈ kvOpsW, isKvOp op = true) ∧
    (curMut (runOps trivialPrims defaultEnv kvOpsW)).kv_offsets.ap_y
      = (curMut (runOps trivialPrims defaultEnv kvOpsW)).kv_offsets.lat_y :=
  ⟨by decide, kv_vertical_coupling trivialPrims kvOpsW (by decide)⟩

/-! ### Claim C4 -/

/-- Counterexample to C4 as stated: moving the Blend slider (`setAlpha`)
is a mutator (its Tk variable write changes the observable global alpha),
yet its callback only recomputes the overlay — the history is unchanged,
no entry recording the new state is pushed. -/
theorem set_alpha_pushes_no_entry :
    isMutatorOp (Op.setAlpha (7/10)) = true ∧
    obs envAlpha ≠ obs defaultEnv ∧
    envAlpha.history = defaultEnv.history := by
  refine ⟨rfl, ?_, rfl⟩
  intro h
  have h' := congrArg Obs.alpha h
  have e1 : (obs envAlpha).alpha = 7/10 := rfl
  have e2 : (obs defaultEnv).alpha = 1/2 := rfl
  rw [e1, e2] at h'
  norm_num at h'

/-- C4 (amended): every interaction-layer mutator that changes observable
state pushes, on return, a new History Entry recording the full mutable
scalar state — except `setAlpha` and `setColorOverlay`, which change the
global blend state without pushing any entry, and an adjustment change
whose target slot has no loaded original, which updates the adjustment
value without pushing. -/
theorem mutator_pushes_full_state (P : Prims) (op : Op) (e : Env)
    (h1 : isMutatorOp op = true) (h2 : isGlobalBlendOp op = false)
    (h3 : adjustBlocked op e = false)
    (h4 : obs (stepOp P op e) ≠ obs e) :
    pushed e (stepOp P op e) := by
  rcases mutator_step_or_pushes P op e h1 h2 h3 with h | h
  · exact absurd (congrArg obs h) h4
  · exact h

/-- Witness for C4 (amended): a vertical nudge from the startup state. -/
theorem mutator_pushes_full_state_witness :
    isMutatorOp (Op.nudgeKv 0 1) = true ∧
    isGlobalBlendOp (Op.nudgeKv 0 1) = false ∧
    adjustBlocked (Op.nudgeKv 0 1) defaultEnv = false ∧
    obs (stepOp trivialPrims (Op.nudgeKv 0 1) defaultEnv) ≠ obs defaultEnv ∧
    pushed defaultEnv (stepOp trivialPrims (Op.nudgeKv 0 1) defaultEnv) := by
  have hobs : obs (stepOp trivialPrims (Op.nudgeKv 0 1) defaultEnv) ≠ obs defaultEnv := by
    intro h
    exact absurd (congrArg (fun o => o.bundle.kv_offsets.ap_y) h) (by decide)
  exact ⟨rfl, rfl, rfl, hobs,
    mutator_pushes_full_state trivialPrims (Op.nudgeKv 0 1) defaultEnv rfl rfl rfl hobs⟩

/-! ### Claim C5 -/

/-- Counterexample to C5 as stated: after pushes of entries 1..21 onto an
empty stack, the stack length is 20 but the oldest surviving entry is
entry 2 — the 20th-from-last pushed — while the 21st-from-last pushed
(entry 1) has been evicted and is no longer on the stack at all. -/
theorem history_21st_from_last_evicted :
    hist21.length = 20 ∧
    hist21.head? = some (snapN 2) ∧
    ¬ snapN 1 ∈ hist21 := by
  refine ⟨?_, ?_, ?_⟩ <;> decide

/-- C5 (amended): every operation keeps the History Stack at ≤ 20 entries
(oldest evicted first); once at least 20 entries have been pushed, the
stack length is exactly 20 and the stack holds precisely the last 20
pushed entries, so the oldest surviving entry is the 20th-from-last
pushed. -/
theorem history_ring_buffer (P : Prims) :
    (∀ (op : Op) (e : Env), e.history.length ≤ 20 → (stepOp P op e).history.length ≤ 20) ∧
    (∀ h0 ss : List Snap, h0.length ≤ 20 → 20 ≤ ss.length →
      (ss.foldl pushEntry h0).length = 20 ∧
      ss.foldl pushEntry h0 = ss.drop (ss.length - 20)) := by
  constructor
  · intro op e he
    rcases stepOp_history_shape P op e with h | ⟨s, h⟩ | h
    · rw [h]
      exact he
    · rw [h]
      exact pushEntry_length_le _ _ he
    · rw [h]
      simp
      omega
  · intro h0 ss hh hss
    have key : ss.foldl pushEntry h0 = ss.drop (ss.length - 20) := by
      rw [foldl_pushEntry_eq_drop ss h0 hh]
      have h1 : (h0 ++ ss).length - 20 = h0.length + (ss.length - 20) := by
        simp
        omega
      rw [h1, ← List.drop_drop, List.drop_left]
    refine ⟨?_, key⟩
    rw [key]
    simp
    omega

/-- Witness for C5 (amended): the history bound after a nudge, and the
exact contents after the 21 concrete pushes of `hist21`. -/
theorem history_ring_buffer_witness :
    defaultEnv.history.length ≤ 20 ∧
    (stepOp trivialPrims (Op.nudgeKv 0 1) defaultEnv).history.length ≤ 20 ∧
    ([] : List Snap).length ≤ 20 ∧
    20 ≤ ((List.range 21).map fun i => snapN (i + 1)).length ∧
    hist21.length = 20 ∧
    hist21 = ((List.range 21).map fun i => snapN (i + 1)).drop
      (((List.range 21).map fun i => snapN (i + 1)).length - 20) := by
  have h := history_ring_buffer trivialPrims
  have h1 := h.1 (Op.nudgeKv 0 1) defaultEnv (by decide)
  have h2 := h.2 [] ((List.range 21).map fun i => snapN (i + 1)) (by decide) (by decide)
  exact ⟨by decide, h1, by decide, by decide, h2.1, h2.2⟩

/-! ### Claim C6 -/

/-- C6 (code bug): history entries are not immutable snapshots.
`_save_state` copies the five dictionaries, but `_undo_last_action`
assigns the stored dictionaries of the new top entry back to the live
attributes *without copying*.  In the trace "load, press AP at (0,0),
drag to (1,0), undo, drag to (2,0)", the baseline entry (heap address 1)
is the bottom of the stack before and after the final drag, yet that
drag mutates the stored entry's contents in place: its `kv_offsets.ap_x`
changes from 0 to 1, so a later undo would restore corrupted state. -/
theorem undo_aliases_stored_entry :
    c6Before.history.head?.map Snap.addr = some 1 ∧
    (c6Before.heap.getD 1 defaultMut).kv_offsets.ap_x = 0 ∧
    c6After.history.head?.map Snap.addr = some 1 ∧
    (c6After.heap.getD 1 defaultMut).kv_offsets.ap_x = 1 := by
  refine ⟨?_, ?_, ?_, ?_⟩ <;> decide

/-! ### Claim C7 -/

/-- Counterexample to C7 as stated: a successful dataset load leaves the
previous History Stack untouched — after one nudge (history length 2) a
successful load still has the same 2-entry history, instead of a cleared
stack with one fresh baseline snapshot. -/
theorem load_dataset_keeps_old_history :
    0 < loadedCount filesDrrAp ∧
    envNudged.history.length = 2 ∧
    (load_dataset filesDrrAp envNudged).history = envNudged.history :=
  ⟨by decide, by decide, rfl⟩

/-- C7 (amended): every successful dataset load populates the original
(and working) rasters and resets the transform state, adjustment sets,
alpha and color_overlay to their defaults, re-recording the default
baseline `initial_state` — but it neither clears the History Stack nor
pushes a fresh baseline snapshot: the history is left unchanged. -/
theorem load_dataset_resets_state_keeps_history (files : Slots (Option Raster)) (e : Env)
    (h : 0 < loadedCount files) :
    (load_dataset files e).images = files ∧
    (load_dataset files e).original_images = files ∧
    curMut (load_dataset files e) = defaultMut ∧
    (load_dataset files e).alpha = 1/2 ∧
    (load_dataset files e).use_color_overlay = false ∧
    (load_dataset files e).initial_state = defaultInitState ∧
    (load_dataset files e).active_view = none ∧
    (load_dataset files e).history = e.history := by
  unfold load_dataset
  rw [if_pos h]
  refine ⟨rfl, rfl, ?_, rfl, rfl, rfl, rfl, rfl⟩
  show (e.heap ++ [defaultMut]).getD e.heap.length defaultMut = defaultMut
  rw [List.getD_append_right _ _ _ _ le_rfl]
  simp

/-- Witness for C7 (amended): loading the AP pair after a nudge. -/
theorem load_dataset_resets_state_keeps_history_witness :
    0 < loadedCount filesApPair ∧
    (load_dataset filesApPair envNudged).images = filesApPair ∧
    curMut (load_dataset filesApPair envNudged) = defaultMut ∧
    (load_dataset filesApPair envNudged).history = envNudged.history := by
  have h := load_dataset_resets_state_keeps_history filesApPair envNudged (by decide)
  exact ⟨by decide, h.1, h.2.2.1, h.2.2.2.2.2.2.2⟩

/-! ### Claim C8 -/

/-- C8: Rotation scope.  (1) The rotation slider callback while a view
other than AP is active leaves the whole state unchanged (in particular
`rotations.ap`); (2) the rotation wheel on the LAT canvas leaves the whole
state unchanged; (3) compositing the LAT view depends only on the resize
primitive, the rasters, the blend scalars and LAT's zoom/pan/offsets — it
never applies the rotation primitive and its output is independent of the
stored rotation state of either view. -/
theorem rotation_scope :
    (∀ (val : ℚ) (e : Env), e.active_view ≠ some View.ap → rotate_active val e = e) ∧
    (∀ (delta : ℤ) (e : Env), mouse_scroll View.lat delta e = e) ∧
    (∀ (P1 P2 : Prims) (e1 e2 : Env),
      P1.resize = P2.resize →
      e1.images = e2.images →
      e1.alpha = e2.alpha →
      e1.use_color_overlay = e2.use_color_overlay →
      (curMut e1).zoom_levels.lat = (curMut e2).zoom_levels.lat →
      (curMut e1).pan_offsets.lat = (curMut e2).pan_offsets.lat →
      (curMut e1).kv_offsets.lat_x = (curMut e2).kv_offsets.lat_x →
      (curMut e1).kv_offsets.lat_y = (curMut e2).kv_offsets.lat_y →
      update_match_overlay P1 e1 View.lat = update_match_overlay P2 e2 View.lat) := by
  refine ⟨?_, ?_, ?_⟩
  · intro val e h
    unfold rotate_active
    rw [if_pos]
    simp [h]
  · intro delta e
    unfold mouse_scroll
    rw [if_neg]
    intro hc
    exact View.noConfusion hc
  · intro P1 P2 e1 e2 hres him hal hov hz hp hx hy
    unfold update_match_overlay
    rw [him]
    cases hd : e2.images.get (drrSlot View.lat) with
    | none => rfl
    | some drr =>
      cases hk : e2.images.get (kvSlot View.lat) with
      | none => rfl
      | some kv =>
        simp only [kvOffsetX, kvOffsetY, PerView.get]
        rw [hres, hz, hp, hx, hy, hal, hov,
          if_neg (show ¬(View.lat = View.ap ∧ (curMut e1).rotations.ap ≠ 0) from
            fun hc => View.noConfusion hc.1),
          if_neg (show ¬(View.lat = View.ap ∧ (curMut e2).rotations.ap ≠ 0) from
            fun hc => View.noConfusion hc.1)]

/-- Witness for C8: the slider with LAT "active", the wheel on LAT, and
the LAT composite across different rotation states and different rotate
primitives. -/
theorem rotation_scope_witness :
    envApW.active_view ≠ some View.ap ∧
    rotate_active 45 envApW = envApW ∧
    mouse_scroll View.lat 1 envApW = envApW ∧
    trivialPrims.resize = blackoutPrims.resize ∧
    envApW.images = envRotW.images ∧
    envApW.alpha = envRotW.alpha ∧
    envApW.use_color_overlay = envRotW.use_color_overlay ∧
    (curMut envApW).zoom_levels.lat = (curMut envRotW).zoom_levels.lat ∧
    (curMut envApW).pan_offsets.lat = (curMut envRotW).pan_offsets.lat ∧
    (curMut envApW).kv_offsets.lat_x = (curMut envRotW).kv_offsets.lat_x ∧
    (curMut envApW).kv_offsets.lat_y = (curMut envRotW).kv_offsets.lat_y ∧
    update_match_overlay trivialPrims envApW View.lat
      = update_match_overlay blackoutPrims envRotW View.lat := by
  have hact : envApW.active_view ≠ some View.ap := by decide
  exact ⟨hact, rotation_scope.1 45 envApW hact, rotation_scope.2.1 1 envApW,
    rfl, rfl, rfl, rfl, rfl, rfl, rfl, rfl,
    rotation_scope.2.2 trivialPrims blackoutPrims envApW envRotW
      rfl rfl rfl rfl rfl rfl rfl rfl⟩

/-! ### Claim C9 -/

/-- C9: Undo floor and restore.  With at most the baseline entry on the
stack (`len(history) ≤ 1`), `_undo_last_action` fails with the
"Nothing to undo" early return (`none`) and leaves all state unchanged;
with a longer stack it pops the top entry and restores the new top —
live bundle reference, alpha and color_overlay — as the current state. -/
theorem undo_floor_and_restore (e : Env) :
    (e.history.length ≤ 1 →
      undo_last_action e = none ∧ ∀ P : Prims, stepOp P Op.undoOp e = e) ∧
    (2 ≤ e.history.length →
      ∃ e' prev, undo_last_action e = some e' ∧
        e.history.dropLast.getLast? = some prev ∧
        e'.history = e.history.dropLast ∧
        e'.live = prev.addr ∧
        e'.alpha = prev.alpha ∧
        e'.use_color_overlay = prev.use_color_overlay ∧
        curMut e' = e.heap.getD prev.addr defaultMut ∧
        e'.heap = e.heap ∧ e'.images = e.images ∧
        e'.original_images = e.original_images) := by
  constructor
  · intro h
    have hnone : undo_last_action e = none := by
      unfold undo_last_action
      rw [if_pos h]
    refine ⟨hnone, fun P => ?_⟩
    simp only [stepOp]
    rw [hnone]
    rfl
  · intro h
    have hne : ¬ e.history.length ≤ 1 := by omega
    have hld : e.history.dropLast ≠ [] := by
      intro hc
      have hlen := congrArg List.length hc
      simp at hlen
      omega
    obtain ⟨prev, hprev⟩ :=
      Option.isSome_iff_exists.mp (List.getLast?_isSome.mpr hld)
    refine ⟨{ e with
        history := e.history.dropLast
        live := prev.addr
        alpha := prev.alpha
        use_color_overlay := prev.use_color_overlay },
      prev, ?_, hprev, rfl, rfl, rfl, rfl, rfl, rfl, rfl, rfl⟩
    unfold undo_last_action
    rw [if_neg hne, hprev]
    rfl

/-- Witness for C9: the startup state (only the baseline entry) refuses to
undo; after one nudge (two entries) undo succeeds. -/
theorem undo_floor_and_restore_witness :
    defaultEnv.history.length ≤ 1 ∧
    undo_last_action defaultEnv = none ∧
    2 ≤ envNudged.history.length ∧
    (undo_last_action envNudged).isSome = true := by
  have h1 := (undo_floor_and_restore defaultEnv).1 (by decide)
  have h2 := (undo_floor_and_restore envNudged).2 (by decide)
  obtain ⟨e', prev, heq, -⟩ := h2
  refine ⟨by decide, h1.1, by decide, ?_⟩
  rw [heq]
  rfl

/-! ### Claim C10 -/

@[simp] theorem Slots.get_set_same {α : Type} (s : Slots α) (t : Slot) (a : α) :
    (s.set t a).get t = a := by cases t <;> rfl

theorem Slots.get_set_ne {α : Type} (s : Slots α) (t t' : Slot) (a : α) (h : t' ≠ t) :
    (s.set t a).get t' = s.get t' := by
  cases t <;> cases t' <;> first | rfl | exact absurd rfl h

/-- A recognized filter applied with a loaded original behaves as
replace-working-raster-then-save. -/
theorem apply_selected_filter_eq (P : Prims) (e : Env) (name : String) (src : Raster)
    (f : Raster → Raster)
    (hvar : e.filter_var = name) (hsel : name ≠ "Select Filter")
    (horig : e.original_images.get e.current_adjustment_image = some src)
    (hf : filterFuncs P name = some f) :
    apply_selected_filter P e =
      save_state { e with
        images := e.images.set e.current_adjustment_image (some (f src)) } := by
  unfold apply_selected_filter
  rw [hvar, if_neg hsel, horig, hf]

theorem filter_from_original_aux (P : Prims) (e : Env) (name : String) (src : Raster)
    (f : Raster → Raster)
    (hvar : e.filter_var = name) (hsel : name ≠ "Select Filter")
    (horig : e.original_images.get e.current_adjustment_image = some src)
    (hf : filterFuncs P name = some f) :
    (apply_selected_filter P e).images.get e.current_adjustment_image = some (f src) ∧
    (apply_selected_filter P (apply_selected_filter P e)).images.get
      e.current_adjustment_image = some (f src) ∧
    ∀ s, s ≠ e.current_adjustment_image →
      (apply_selected_filter P e).images.get s = e.images.get s ∧
      (apply_selected_filter P (apply_selected_filter P e)).images.get s
        = e.images.get s := by
  have he1 := apply_selected_filter_eq P e name src f hvar hsel horig hf
  have he2 := apply_selected_filter_eq P
    (save_state { e with images := e.images.set e.current_adjustment_image (some (f src)) })
    name src f hvar hsel horig hf
  refine ⟨?_, ?_, ?_⟩
  · rw [he1, save_state_images]
    exact Slots.get_set_same _ _ _
  · rw [he1, he2, save_state_images]
    exact Slots.get_set_same _ _ _
  · intro s hs
    constructor
    · rw [he1, save_state_images]
      exact Slots.get_set_ne _ _ _ _ hs
    · rw [he1, he2]
      show ((e.images.set e.current_adjustment_image (some (f src))).set
        e.current_adjustment_image (some (f src))).get s = e.images.get s
      rw [Slots.get_set_ne _ _ _ _ hs, Slots.get_set_ne _ _ _ _ hs]

/-- C10: Filter application from pristine source.  For every state whose
target slot has a loaded original raster and every recognized filter name
(selected in `filter_var`), applying the filter computes its output from
the slot's original raster — never the current working raster — so
applying the same named filter twice in succession yields identical
working rasters both times, and the working rasters of the other three
slots are unchanged by both applications. -/
theorem filter_from_original (P : Prims) (e : Env) (name : String) (src : Raster)
    (hname : name ∈ filterNames)
    (hvar : e.filter_var = name)
    (horig : e.original_images.get e.current_adjustment_image = some src) :
    ∃ f, filterFuncs P name = some f ∧
      (apply_selected_filter P e).images.get e.current_adjustment_image = some (f src) ∧
      (apply_selected_filter P (apply_selected_filter P e)).images.get
        e.current_adjustment_image = some (f src) ∧
      ∀ s, s ≠ e.current_adjustment_image →
        (apply_selected_filter P e).images.get s = e.images.get s ∧
        (apply_selected_filter P (apply_selected_filter P e)).images.get s
          = e.images.get s := by
  have hsel : name ≠ "Select Filter" := by
    intro hc
    rw [hc] at hname
    exact absurd hname (by decide)
  simp only [filterNames, List.mem_cons, List.mem_singleton, List.not_mem_nil,
    or_false] at hname
  rcases hname with rfl | rfl | rfl | rfl | rfl | rfl <;>
    exact ⟨_, rfl, filter_from_original_aux P e _ src _ hvar hsel horig rfl⟩

/-- Witness for C10: Soft Tissue Enhance applied twice to DRR-AP from the
loaded startup state. -/
theorem filter_from_original_witness :
    ("Soft Tissue Enhance" ∈ filterNames) ∧
    envFilterW.filter_var = "Soft Tissue Enhance" ∧
    envFilterW.original_images.get envFilterW.current_adjustment_image = some testRaster ∧
    ∃ f, filterFuncs trivialPrims "Soft Tissue Enhance" = some f ∧
      (apply_selected_filter trivialPrims envFilterW).images.get
        envFilterW.current_adjustment_image = some (f testRaster) ∧
      (apply_selected_filter trivialPrims
        (apply_selected_filter trivialPrims envFilterW)).images.get
        envFilterW.current_adjustment_image = some (f testRaster) ∧
      ∀ s, s ≠ envFilterW.current_adjustment_image →
        (apply_selected_filter trivialPrims envFilterW).images.get s
          = envFilterW.images.get s ∧
        (apply_selected_filter trivialPrims
          (apply_selected_filter trivialPrims envFilterW)).images.get s
          = envFilterW.images.get s :=
  ⟨by decide, rfl, rfl,
   filter_from_original trivialPrims envFilterW "Soft Tissue Enhance" testRaster
     (by decide) rfl rfl⟩

end IsoTarget
